import Mathlib

/-!
Shallow embedding of `src/app.py` (Ethereum block summary API).

The embedding models the Python pipeline:
  `hex_block_number` → `call_rpc` → `fetch_block` → `process_block` → `get_block`.

Modelling conventions:
  * Python scalar values appearing in JSON dicts are modelled by `Prim`
    (None / str / int / bool).  Python's `dict.get(k)` returns `None` both
    when the key is absent and when it is present with value `None`; the
    embedding therefore collapses both to `Prim.null` for scalar-valued keys.
  * A transaction dict is an association list `Tx`; `tx.get(k)` is `txGet`.
  * A block dict is the structure `Block`.  The `"transactions"` key is kept
    as an `Option (List Tx)` because `block.get("transactions", [])` defaults
    to `[]` only when the key is ABSENT; when present it is a list of
    transaction dicts (the shape `eth_getBlockByNumber(.., true)` yields).
  * `collections.Counter` (keys in dict insertion order, a dict under the
    hood) is an association list with unique keys: `cinc` updates the first
    matching key in place or appends a fresh key at the end, exactly as a
    Python dict does.
  * Exceptions are modelled by `Except PyErr`.  The single Python class
    `RpcError` is raised at three distinct sites with three distinct message
    prefixes ("Network or HTTP error while calling RPC: ", "RPC error: ",
    "No block found for "); the `RpcKind` tag records which site raised it,
    information that is observable in Python through the message text.
  * The network is an oracle `Net` mapping (method, params) to what the
    single HTTPS POST does: either a `requests` exception before a response
    is obtained, or a decoded response (status code plus decoded JSON body).
    `requests.Response.raise_for_status` raises exactly for 4xx/5xx codes.
  * `fetch_block` and `get_block` additionally return the number of outbound
    RPC calls performed (0 or 1), so that "no network call is attempted" is
    a provable statement.
-/

namespace App

/-- Python scalar values (the values that occur in transaction dicts and in
the scalar fields of a block dict). -/
inductive Prim where
  | null : Prim
  | str : String → Prim
  | int : Int → Prim
  | bool : Bool → Prim
deriving DecidableEq, Repr

/-- Python truthiness of a `Prim` value (`if sender:` / `if block.get("number")`). -/
def pyTruthy : Prim → Bool
  | .null => false
  | .str s => s ≠ ""
  | .int n => n ≠ 0
  | .bool b => b

/-- A transaction dict: association list from string keys to scalar values. -/
abbrev Tx := List (String × Prim)

/-- `tx.get(k)`: first value bound to `k`, Python `None` (`Prim.null`) when absent. -/
def txGet (tx : Tx) (k : String) : Prim :=
  match tx.find? (fun p => p.1 = k) with
  | some kv => kv.2
  | none => .null

/-- A block dict as returned by `eth_getBlockByNumber(…, true)`.
Scalar keys `"number"` and `"hash"` follow the `dict.get` convention
(absent ≡ `Prim.null`); `transactions := none` models the key being absent. -/
structure Block where
  number : Prim := .null
  hash : Prim := .null
  transactions : Option (List Tx) := none
deriving DecidableEq, Repr

/-- A `collections.Counter` / Python dict with `Prim` keys, in insertion order. -/
abbrev Counter := List (Prim × Nat)

/-- `c[k] += 1` on a Python Counter: bump the first entry with key `k`,
or append `(k, 1)` at the end (dicts preserve insertion order). -/
def cinc : Counter → Prim → Counter
  | [], k => [(k, 1)]
  | (k', n) :: rest, k =>
      if k' = k then (k', n + 1) :: rest else (k', n) :: cinc rest k

/-- Total of all counts in a counter. -/
def csum (c : Counter) : Nat := (c.map (fun p => p.2)).sum

/-- Exceptions raised at the three `raise RpcError(...)` sites of `app.py`,
distinguished in Python by the message prefix. -/
inductive RpcKind where
  | transport : RpcKind
  | protocol : RpcKind
  | notFound : RpcKind
deriving DecidableEq, Repr

/-- Python exceptions relevant to the pipeline: `ValueError`, the custom
`RpcError` (tagged with its raise site), and any other exception class
(`TypeError`, `AttributeError`, …). -/
inductive PyErr where
  | valueError : String → PyErr
  | rpcError : RpcKind → String → PyErr
  | otherExc : String → PyErr
deriving DecidableEq, Repr

/-! ### Hex rendering: Python `hex(n)` -/

/-- Lowercase hexadecimal digit character for `d < 16`. -/
def hexDigitChar (d : Nat) : Char :=
  if d < 10 then Char.ofNat ('0'.toNat + d) else Char.ofNat ('a'.toNat + (d - 10))

/-- Hexadecimal digit list of `n`, most significant first, empty for `0`
(the `0` case is special-cased in `hexDigitsOf`, as in CPython's `hex`).
The first argument is fuel; `n` itself is always enough fuel because the
value shrinks by a factor of 16 at every step. -/
def hexDigitsAux (fuel n : Nat) : List Char :=
  match fuel with
  | 0 => []
  | fuel + 1 =>
      if n = 0 then [] else hexDigitsAux fuel (n / 16) ++ [hexDigitChar (n % 16)]

/-- Hexadecimal digit list of `n`, most significant first, empty for `0`. -/
def natHexDigits (n : Nat) : List Char := hexDigitsAux n n

/-- Digit string of `hex(n)` after the `"0x"`: `"0"` for zero, else the
leading-zero-free digit list. -/
def hexDigitsOf (n : Nat) : List Char :=
  if n = 0 then ['0'] else natHexDigits n

/-- Python's `hex` builtin on an integer. -/
def pyHex (n : Int) : String :=
  if n < 0 then "-0x" ++ String.mk (hexDigitsOf n.natAbs)
  else "0x" ++ String.mk (hexDigitsOf n.natAbs)

/-- Numeric value of one character read as a lowercase hex digit;
non-digit characters count as 0.  Used only to state what string
`hex` produced. -/
def hexCharVal (c : Char) : Nat :=
  if 'a' ≤ c ∧ c ≤ 'f' then c.toNat - 'a'.toNat + 10
  else if '0' ≤ c ∧ c ≤ '9' then c.toNat - '0'.toNat
  else 0

/-- Numeric value of a hex digit string, most significant first. -/
def hexListVal (cs : List Char) : Nat :=
  cs.foldl (fun a c => 16 * a + hexCharVal c) 0

/-- Whether a character is a lowercase hexadecimal digit. -/
def isLowerHexChar (c : Char) : Bool :=
  ('0' ≤ c ∧ c ≤ '9') ∨ ('a' ≤ c ∧ c ≤ 'f')

/-! ### Hex parsing: Python `int(s, 16)` -/

/-- Value of one hex digit character, `none` for a non-digit. -/
def hexVal? (c : Char) : Option Nat :=
  if '0' ≤ c ∧ c ≤ '9' then some (c.toNat - '0'.toNat)
  else if 'a' ≤ c ∧ c ≤ 'f' then some (c.toNat - 'a'.toNat + 10)
  else if 'A' ≤ c ∧ c ≤ 'F' then some (c.toNat - 'A'.toNat + 10)
  else none

/-- Digits after the first: hex digits with single underscores allowed
between digits, as in CPython's integer literal grammar. -/
def parseHexSeqAux : List Char → Nat → Option Nat
  | [], acc => some acc
  | '_' :: c :: rest, acc =>
      match hexVal? c with
      | some d => parseHexSeqAux rest (16 * acc + d)
      | none => none
  | c :: rest, acc =>
      match hexVal? c with
      | some d => parseHexSeqAux rest (16 * acc + d)
      | none => none

/-- A nonempty hex digit sequence `D (D | "_" D)*`. -/
def parseHexSeq : List Char → Option Nat
  | [] => none
  | c :: rest =>
      match hexVal? c with
      | some d => parseHexSeqAux rest d
      | none => none

/-- Strip leading and trailing whitespace. -/
def stripWs (cs : List Char) : List Char :=
  ((cs.dropWhile Char.isWhitespace).reverse.dropWhile Char.isWhitespace).reverse

/-- Magnitude part of `int(s, 16)`: optional `"0x"`/`"0X"`, an underscore
allowed right after the base marker, then a digit sequence. -/
def parseHexMagnitude : List Char → Option Nat
  | '0' :: 'x' :: '_' :: rest => parseHexSeq rest
  | '0' :: 'x' :: rest => parseHexSeq rest
  | '0' :: 'X' :: '_' :: rest => parseHexSeq rest
  | '0' :: 'X' :: rest => parseHexSeq rest
  | cs => parseHexSeq cs

/-- Python's `int(s, 16)` on a string: surrounding whitespace, an optional
sign, an optional base marker, then hex digits.  `none` models the
`ValueError` CPython raises for a malformed literal. -/
def pyIntBase16 (s : String) : Option Int :=
  match stripWs s.data with
  | '+' :: rest => (parseHexMagnitude rest).map (fun n => (n : Int))
  | '-' :: rest => (parseHexMagnitude rest).map (fun n => -(n : Int))
  | cs => (parseHexMagnitude cs).map (fun n => (n : Int))

/-! ### `hex_block_number` (app.py lines 18–26) -/

/-- `hex_block_number(block_number)`: `"latest"` for `None`, `ValueError`
for a negative integer, else `hex(block_number)`. -/
def hex_block_number : Option Int → Except PyErr String
  | none => .ok "latest"
  | some n =>
      if n < 0 then .error (.valueError "Block number cannot be negative")
      else .ok (pyHex n)

/-! ### `process_block` (app.py lines 68–99) -/

/-- The summary dict built by `process_block`. -/
structure Summary where
  block_number : Option Int
  block_hash : Prim
  total_transactions : Nat
  by_sender : Counter
  by_receiver : Counter
deriving DecidableEq, Repr

/-- One iteration of the `for tx in txs:` loop: conditionally bump the
sender tally, unconditionally bump the receiver tally. -/
def tallyStep (acc : Counter × Counter) (tx : Tx) : Counter × Counter :=
  let sender := txGet tx "from"
  let receiver := txGet tx "to"
  let senders := if pyTruthy sender then cinc acc.1 sender else acc.1
  let receiver_key : Prim := if receiver = .null then .str "null" else receiver
  (senders, cinc acc.2 receiver_key)

/-- The whole transaction loop, starting from two empty Counters. -/
def tally (txs : List Tx) : Counter × Counter :=
  txs.foldl tallyStep ([], [])

/-- `int(block["number"], 16) if block.get("number") else None`:
`none` for a falsy field; a truthy string parses with `int(…, 16)`
(`ValueError` on a malformed literal); a truthy non-string raises
`TypeError` (`int()` with an explicit base requires a string). -/
def parseBlockNumber (v : Prim) : Except PyErr (Option Int) :=
  if pyTruthy v then
    match v with
    | .str s =>
        match pyIntBase16 s with
        | some n => .ok (some n)
        | none => .error (.valueError ("invalid literal for int() with base 16: " ++ s))
    | _ => .error (.otherExc "TypeError: int() cannot convert non-string with explicit base")
  else .ok none

/-- `process_block(block)`: count transactions, tally senders/receivers,
then build the summary dict (where the `"number"` parse may raise). -/
def process_block (block : Block) : Except PyErr Summary :=
  let txs := block.transactions.getD []
  let total_txs := txs.length
  let tallies := tally txs
  match parseBlockNumber block.number with
  | .error e => .error e
  | .ok bn =>
      .ok { block_number := bn
            block_hash := block.hash
            total_transactions := total_txs
            by_sender := tallies.1
            by_receiver := tallies.2 }

/-! ### `call_rpc` (app.py lines 29–51) -/

/-- A parameter of a JSON-RPC call (`app.py` only passes a string and a bool). -/
inductive Param where
  | pstr : String → Param
  | pbool : Bool → Param
deriving DecidableEq, Repr

/-- The value found under `"result"` in a decoded JSON-RPC response body:
Python `None` (absent key or JSON null), a block dict, or some other value
(a block dict is what a conforming node returns; `vother` keeps the client
honest about values it merely passes through). -/
inductive RVal where
  | vnone : RVal
  | vblock : Block → RVal
  | vother : Prim → RVal
deriving DecidableEq, Repr

/-- A decoded JSON-RPC response body: whether an `"error"` key is present
(with its payload), and `data.get("result")`. -/
structure RpcBody where
  hasError : Bool := false
  errorVal : Prim := .null
  result : RVal := .vnone
deriving DecidableEq, Repr

/-- What the single `requests.post` of one RPC call does: raise a
`requests` exception before a response is decoded (connection failure or
timeout), or produce a response with an HTTP status code and decoded body. -/
inductive Wire where
  | netFail : String → Wire
  | resp : Nat → RpcBody → Wire
deriving DecidableEq, Repr

/-- The network as an oracle: what the wire does for a given method and
parameter list. -/
def Net := String → List Param → Wire

/-- `requests.Response.raise_for_status` raises exactly for 4xx/5xx codes. -/
def errStatus (status : Nat) : Bool := 400 ≤ status ∧ status < 600

/-- Python `str()` of a scalar, for interpolating an error payload. -/
def primStr : Prim → String
  | .null => "None"
  | .str s => s
  | .int n => toString n
  | .bool b => if b then "True" else "False"

/-- `call_rpc(method, params)` against network `net`: wrap any transport
failure (connection, timeout, bad HTTP status) in `RpcError` BEFORE the
body is examined; then an `"error"` key in the decoded body raises
`RpcError`; otherwise return `data.get("result")`. -/
def call_rpc (net : Net) (method : String) (params : List Param) : Except PyErr RVal :=
  match net method params with
  | .netFail msg =>
      .error (.rpcError .transport ("Network or HTTP error while calling RPC: " ++ msg))
  | .resp status body =>
      if errStatus status then
        .error (.rpcError .transport
          ("Network or HTTP error while calling RPC: HTTP status " ++ toString status))
      else if body.hasError then
        .error (.rpcError .protocol ("RPC error: " ++ primStr body.errorVal))
      else .ok body.result

/-! ### `fetch_block` (app.py lines 54–65) -/

/-- `fetch_block(block_number)`: hex-encode the block id (may raise before
any network traffic), call `eth_getBlockByNumber` with full transaction
objects, and raise `RpcError` on a `None` result.  The second component
counts outbound RPC calls. -/
def fetch_block (net : Net) (block_number : Option Int) : Except PyErr RVal × Nat :=
  match hex_block_number block_number with
  | .error e => (.error e, 0)
  | .ok block_id =>
      match call_rpc net "eth_getBlockByNumber" [.pstr block_id, .pbool true] with
      | .error e => (.error e, 1)
      | .ok .vnone => (.error (.rpcError .notFound ("No block found for " ++ block_id)), 1)
      | .ok r => (.ok r, 1)

/-! ### `get_block` (app.py lines 126–148) -/

/-- `process_block` applied to whatever `fetch_block` returned: a non-dict
value makes `block.get` raise `AttributeError` (caught as a generic
exception by the handler). -/
def process_block_r : RVal → Except PyErr Summary
  | .vblock b => process_block b
  | .vnone => .error (.otherExc "AttributeError: NoneType object has no attribute get")
  | .vother p => .error (.otherExc ("AttributeError: " ++ primStr p ++ " has no attribute get"))

/-- Outcome of the `/block` route: a 200 with the summary, or an
`HTTPException` with a status code and detail string. -/
inductive HttpResult where
  | ok : Summary → HttpResult
  | httpError : Nat → String → HttpResult
deriving DecidableEq, Repr

/-- The `except` clauses of `get_block`, in source order: `RpcError` → 502,
`ValueError` → 400, any other exception → 500 with a generic message. -/
def handle_exn : PyErr → HttpResult
  | .rpcError _ msg => .httpError 502 msg
  | .valueError msg => .httpError 400 msg
  | .otherExc msg => .httpError 500 ("Unexpected server error: " ++ msg)

/-- `GET /block?number=…`: fetch, summarize, and map any exception from
either step through `handle_exn`.  The second component counts outbound
RPC calls. -/
def get_block (net : Net) (number : Option Int) : HttpResult × Nat :=
  match fetch_block net number with
  | (.error e, k) => (handle_exn e, k)
  | (.ok r, k) =>
      match process_block_r r with
      | .ok summary => (.ok summary, k)
      | .error e => (handle_exn e, k)

/-! ### Concrete inputs used in the theorems -/

/-- The three-transaction example block of the spec's test table. -/
def exampleBlock : Block :=
  { number := .null
    hash := .null
    transactions := some
      [[("from", .str "A"), ("to", .str "B")],
       [("from", .str "A"), ("to", .null)],
       [("from", .str "C"), ("to", .str "B")]] }

/-- A network whose response has HTTP status 500 and a body that carries a
JSON-RPC error object. -/
def net500err : Net :=
  fun _ _ => .resp 500 { hasError := true, errorVal := .str "boom", result := .vnone }

/-- A network that answers 200 with a well-formed body whose result is null. -/
def netNullResult : Net :=
  fun _ _ => .resp 200 { hasError := false, errorVal := .null, result := .vnone }

/-- A network that answers 200 with a block whose `"number"` field is a
truthy string that is not a hex numeral. -/
def netMalformedNumber : Net :=
  fun _ _ => .resp 200
    { hasError := false, errorVal := .null
      result := .vblock { number := .str "zz", hash := .str "0xabc", transactions := some [] } }

end App

namespace App

/-! ### Helper lemmas about counters and the transaction loop -/

theorem csum_nil : csum [] = 0 := rfl

theorem csum_cons (k : Prim) (n : Nat) (c : Counter) :
    csum ((k, n) :: c) = n + csum c := by
  simp [csum]

theorem csum_cinc (c : Counter) (k : Prim) : csum (cinc c k) = csum c + 1 := by
  induction c with
  | nil => rfl
  | cons p rest ih =>
      obtain ⟨k', n⟩ := p
      by_cases h : k' = k <;> simp [cinc, h, csum_cons, ih] <;> omega

theorem tallyStep_receiver_sum (acc : Counter × Counter) (tx : Tx) :
    csum (tallyStep acc tx).2 = csum acc.2 + 1 := by
  simp [tallyStep, csum_cinc]

theorem tallyStep_sender_sum (acc : Counter × Counter) (tx : Tx) :
    csum (tallyStep acc tx).1 ≤ csum acc.1 + 1 := by
  simp only [tallyStep]
  by_cases h : pyTruthy (txGet tx "from") <;> simp [h, csum_cinc]

theorem tally_fold_sums (txs : List Tx) (acc : Counter × Counter) :
    csum (txs.foldl tallyStep acc).2 = csum acc.2 + txs.length ∧
    csum (txs.foldl tallyStep acc).1 ≤ csum acc.1 + txs.length := by
  induction txs generalizing acc with
  | nil => simp
  | cons tx rest ih =>
      obtain ⟨ihr, ihs⟩ := ih (tallyStep acc tx)
      have hr := tallyStep_receiver_sum acc tx
      have hs := tallyStep_sender_sum acc tx
      constructor
      · rw [List.foldl_cons, ihr, hr, List.length_cons]; omega
      · rw [List.foldl_cons, List.length_cons]; omega

theorem tally_fold_sender_eq (txs : List Tx) (acc : Counter × Counter)
    (h : ∀ tx ∈ txs, ¬ pyTruthy (txGet tx "from")) :
    (txs.foldl tallyStep acc).1 = acc.1 := by
  induction txs generalizing acc with
  | nil => rfl
  | cons tx rest ih =>
      rw [List.foldl_cons, ih _ (fun t ht => h t (List.mem_cons_of_mem _ ht))]
      simp [tallyStep, h tx (List.mem_cons_self _ _)]

/-- Inversion of a successful `process_block` run: every field of the
returned summary in terms of the block. -/
theorem process_block_ok (b : Block) (s : Summary) (h : process_block b = .ok s) :
    s.total_transactions = (b.transactions.getD []).length ∧
    s.by_sender = (tally (b.transactions.getD [])).1 ∧
    s.by_receiver = (tally (b.transactions.getD [])).2 ∧
    s.block_hash = b.hash ∧
    parseBlockNumber b.number = .ok s.block_number := by
  simp only [process_block] at h
  cases hp : parseBlockNumber b.number with
  | error e => rw [hp] at h; cases h
  | ok bn =>
      rw [hp] at h
      simp only [Except.ok.injEq] at h
      subst h
      exact ⟨rfl, rfl, rfl, rfl, rfl⟩

/-- C8 (confirmed): on the spec's example block — transactions
`[{from:"A",to:"B"}, {from:"A",to:null}, {from:"C",to:"B"}]` —
`process_block` returns total_transactions 3, by_sender `{"A":2,"C":1}` and
by_receiver `{"B":2,"null":1}`. -/
theorem c8_example_block_summary :
    process_block exampleBlock =
      .ok { block_number := none, block_hash := .null, total_transactions := 3
            by_sender := [(.str "A", 2), (.str "C", 1)]
            by_receiver := [(.str "B", 2), (.str "null", 1)] } := by
  rfl

/-- C10 (confirmed): every summary `process_block` returns satisfies
`csum by_receiver = total_transactions` (each transaction contributes
exactly one receiver tally) and `csum by_sender ≤ total_transactions`. -/
theorem c10_tally_sums_invariant (b : Block) (s : Summary)
    (h : process_block b = .ok s) :
    csum s.by_receiver = s.total_transactions ∧
    csum s.by_sender ≤ s.total_transactions := by
  obtain ⟨ht, hsen, hrec, -, -⟩ := process_block_ok b s h
  obtain ⟨hr, hs⟩ := tally_fold_sums (b.transactions.getD []) ([], [])
  rw [ht, hsen, hrec]
  unfold tally
  constructor
  · simpa [csum_nil] using hr
  · simpa [csum_nil] using hs

/-- Witness for C10 at the example block. -/
theorem c10_witness :
    csum [(Prim.str "B", 2), (Prim.str "null", 1)] = 3 ∧
    csum [(Prim.str "A", 2), (Prim.str "C", 1)] ≤ 3 := by
  have h := c10_tally_sums_invariant exampleBlock
      { block_number := none, block_hash := .null, total_transactions := 3
        by_sender := [(.str "A", 2), (.str "C", 1)]
        by_receiver := [(.str "B", 2), (.str "null", 1)] } (by rfl)
  simpa using h

/-- C9 (confirmed): a block whose transaction list is empty or whose
transactions key is absent yields total 0 and two empty maps (whenever
`process_block` returns at all — the independent `"number"` parse can still
raise, see C2); when the `"number"` field is falsy it does return. -/
theorem c9_empty_transactions (b : Block)
    (h : b.transactions = some [] ∨ b.transactions = none) :
    (∀ s, process_block b = .ok s →
        s.total_transactions = 0 ∧ s.by_sender = [] ∧ s.by_receiver = []) ∧
    (pyTruthy b.number = false →
        process_block b = .ok { block_number := none, block_hash := b.hash
                                total_transactions := 0, by_sender := [], by_receiver := [] }) := by
  have htx : b.transactions.getD [] = [] := by rcases h with h | h <;> simp [h]
  constructor
  · intro s hs
    obtain ⟨ht, hsen, hrec, -, -⟩ := process_block_ok b s hs
    rw [htx] at ht hsen hrec
    exact ⟨by simpa using ht, by simpa [tally] using hsen, by simpa [tally] using hrec⟩
  · intro hn
    simp [process_block, parseBlockNumber, htx, hn, tally]

/-- Witness for C9 at a block with no transactions key. -/
theorem c9_witness :
    process_block { number := .null, hash := .str "0xabc", transactions := none } =
      .ok { block_number := none, block_hash := .str "0xabc"
            total_transactions := 0, by_sender := [], by_receiver := [] } :=
  (c9_empty_transactions _ (Or.inr rfl)).2 rfl

/-- C1 counterexample: a block with one transaction that has no `"from"`
key at all still gets a by_receiver entry — the claim that such a
transaction contributes to NEITHER map is false. -/
theorem c1_counterexample :
    process_block { number := .null, hash := .null
                    transactions := some [[("to", Prim.str "B")]] } =
      .ok { block_number := none, block_hash := .null, total_transactions := 1
            by_sender := [], by_receiver := [(.str "B", 1)] } ∧
    ([(Prim.str "B", 1)] : Counter) ≠ [] := by
  exact ⟨rfl, by decide⟩

/-- C1 (corrected): a transaction whose `"from"` is absent or empty leaves
by_sender untouched but still contributes exactly one by_receiver tally;
consequently a block all of whose transactions lack a truthy `"from"`
summarizes with an empty by_sender while by_receiver still counts every
transaction. -/
theorem c1_skipped_sender_still_tallies_receiver :
    (∀ acc tx, ¬ pyTruthy (txGet tx "from") →
        (tallyStep acc tx).1 = acc.1 ∧ csum (tallyStep acc tx).2 = csum acc.2 + 1) ∧
    (∀ b s, (∀ tx ∈ b.transactions.getD [], ¬ pyTruthy (txGet tx "from")) →
        process_block b = .ok s →
        s.by_sender = [] ∧ csum s.by_receiver = s.total_transactions) := by
  constructor
  · intro acc tx h
    exact ⟨by simp [tallyStep, h], tallyStep_receiver_sum acc tx⟩
  · intro b s hall hs
    obtain ⟨ht, hsen, hrec, -, -⟩ := process_block_ok b s hs
    constructor
    · rw [hsen]
      exact tally_fold_sender_eq _ _ hall
    · rw [ht, hrec]
      unfold tally
      simpa [csum_nil] using (tally_fold_sums (b.transactions.getD []) ([], [])).1

/-- Witness for C1's amended statement on a concrete from-less transaction. -/
theorem c1_witness :
    (tallyStep ([], []) [("to", Prim.str "B")]).1 = [] ∧
    csum (tallyStep ([], []) [("to", Prim.str "B")]).2 = 1 := by
  have h := c1_skipped_sender_still_tallies_receiver.1 ([], []) [("to", Prim.str "B")]
      (by decide)
  simpa using h

/-! ### Helper lemmas about the hex rendering -/

theorem hexDigitsAux_zero (f : Nat) : hexDigitsAux f 0 = [] := by
  cases f <;> rfl

theorem hexCharVal_hexDigitChar (d : Nat) (h : d < 16) :
    hexCharVal (hexDigitChar d) = d := by
  interval_cases d <;> decide

theorem hexDigitChar_isLowerHex (d : Nat) (h : d < 16) :
    isLowerHexChar (hexDigitChar d) = true := by
  interval_cases d <;> decide

theorem hexDigitChar_ne_zero_char (d : Nat) (h : d < 16) (h0 : d ≠ 0) :
    hexDigitChar d ≠ '0' := by
  interval_cases d
  all_goals first | exact absurd rfl h0 | decide

theorem hexListVal_append (cs : List Char) (c : Char) :
    hexListVal (cs ++ [c]) = 16 * hexListVal cs + hexCharVal c := by
  simp [hexListVal, List.foldl_append]

theorem hexDigitsAux_val (f : Nat) :
    ∀ n, n ≤ f → hexListVal (hexDigitsAux f n) = n := by
  induction f with
  | zero =>
      intro n h
      interval_cases n
      rfl
  | succ f ih =>
      intro n h
      by_cases h0 : n = 0
      · subst h0; simp [hexDigitsAux, hexListVal]
      · have hdiv : n / 16 ≤ f := by
          have := Nat.div_lt_self (Nat.pos_of_ne_zero h0) (show 1 < 16 by norm_num)
          omega
        simp only [hexDigitsAux, if_neg h0]
        rw [hexListVal_append, ih _ hdiv,
            hexCharVal_hexDigitChar _ (Nat.mod_lt _ (by norm_num))]
        omega

theorem hexDigitsAux_ne_nil (f n : Nat) (h : n ≤ f) (h0 : n ≠ 0) :
    hexDigitsAux f n ≠ [] := by
  cases f with
  | zero => omega
  | succ f => simp [hexDigitsAux, h0]

theorem hexDigitsAux_mem (f : Nat) :
    ∀ n, n ≤ f → ∀ c ∈ hexDigitsAux f n, isLowerHexChar c = true := by
  induction f with
  | zero =>
      intro n h c hc
      interval_cases n
      simp [hexDigitsAux] at hc
  | succ f ih =>
      intro n h c hc
      by_cases h0 : n = 0
      · subst h0; simp [hexDigitsAux] at hc
      · have hdiv : n / 16 ≤ f := by
          have := Nat.div_lt_self (Nat.pos_of_ne_zero h0) (show 1 < 16 by norm_num)
          omega
        simp only [hexDigitsAux, if_neg h0, List.mem_append, List.mem_singleton] at hc
        rcases hc with hc | hc
        · exact ih _ hdiv c hc
        · subst hc
          exact hexDigitChar_isLowerHex _ (Nat.mod_lt _ (by norm_num))

theorem hexDigitsAux_head_ne_zero (f : Nat) :
    ∀ n, n ≤ f → n ≠ 0 → (hexDigitsAux f n).head? ≠ some '0' := by
  induction f with
  | zero => intro n h h0; omega
  | succ f ih =>
      intro n h h0
      have hdiv : n / 16 ≤ f := by
        have := Nat.div_lt_self (Nat.pos_of_ne_zero h0) (show 1 < 16 by norm_num)
        omega
      simp only [hexDigitsAux, if_neg h0]
      by_cases hd : n / 16 = 0
      · rw [hd, hexDigitsAux_zero, List.nil_append, List.head?_cons]
        have hlt : n % 16 < 16 := Nat.mod_lt _ (by norm_num)
        have hne : n % 16 ≠ 0 := by omega
        intro hc
        exact hexDigitChar_ne_zero_char _ hlt hne (by injection hc)
      · obtain ⟨x, xs, hx⟩ :=
          List.exists_cons_of_ne_nil (hexDigitsAux_ne_nil f (n / 16) hdiv hd)
        have := ih (n / 16) hdiv hd
        rw [hx, List.head?_cons] at this
        rw [hx, List.cons_append, List.head?_cons]
        exact this

/-- All the properties of the digit part of `hex(n)` at once: nonempty,
made of lowercase hex digit characters, no leading zero except for
`n = 0`, and its value reads back as `n`. -/
theorem hexDigitsOf_spec (n : Nat) :
    hexDigitsOf n ≠ [] ∧
    (∀ c ∈ hexDigitsOf n, isLowerHexChar c = true) ∧
    (n ≠ 0 → (hexDigitsOf n).head? ≠ some '0') ∧
    hexListVal (hexDigitsOf n) = n := by
  by_cases h0 : n = 0
  · subst h0
    exact ⟨by decide, by decide, fun h => absurd rfl h, by decide⟩
  · simp only [hexDigitsOf, if_neg h0, natHexDigits]
    exact ⟨hexDigitsAux_ne_nil n n le_rfl h0, hexDigitsAux_mem n n le_rfl,
           fun _ => hexDigitsAux_head_ne_zero n n le_rfl h0, hexDigitsAux_val n n le_rfl⟩

theorem pyHex_natCast (n : Nat) :
    pyHex (n : Int) = "0x" ++ String.mk (hexDigitsOf n) := by
  unfold pyHex
  rw [if_neg (not_lt.mpr (Int.natCast_nonneg n)), Int.natAbs_ofNat]

/-- C3 (confirmed): `hex_block_number` maps `None` to the literal
`"latest"`, `0` to exactly `"0x0"`, and any non-negative `n` to `"0x"`
followed by a nonempty string of lowercase hexadecimal digits with no
leading zero whose value is `n`. -/
theorem c3_hex_translation :
    hex_block_number none = .ok "latest" ∧
    hex_block_number (some 0) = .ok "0x0" ∧
    ∀ n : Nat,
      hex_block_number (some (n : Int)) = .ok ("0x" ++ String.mk (hexDigitsOf n)) ∧
      hexDigitsOf n ≠ [] ∧
      (∀ c ∈ hexDigitsOf n, isLowerHexChar c = true) ∧
      (n ≠ 0 → (hexDigitsOf n).head? ≠ some '0') ∧
      hexListVal (hexDigitsOf n) = n := by
  refine ⟨rfl, by rfl, fun n => ?_⟩
  obtain ⟨h1, h2, h3, h4⟩ := hexDigitsOf_spec n
  refine ⟨?_, h1, h2, h3, h4⟩
  have hnn : ¬ ((n : Int) < 0) := not_lt.mpr (Int.natCast_nonneg n)
  simp [hex_block_number, hnn, pyHex_natCast]

/-- Witness for C3 at `n = 255` (digits `"ff"`). -/
theorem c3_witness :
    hex_block_number (some (255 : Int)) = .ok ("0x" ++ String.mk (hexDigitsOf 255)) ∧
    hexDigitsOf 255 = ['f', 'f'] ∧
    hexListVal (hexDigitsOf 255) = 255 ∧
    (hexDigitsOf 255).head? ≠ some '0' := by
  obtain ⟨-, -, h⟩ := c3_hex_translation
  obtain ⟨h1, -, -, h4, h5⟩ := h 255
  exact ⟨h1, by decide, h5, h4 (by decide)⟩

/-- C2 counterexample: a block whose `"number"` field is the truthy
non-hex string `"zz"` makes `process_block` raise `ValueError` — so it is
not true that no value of the field causes an exception. -/
theorem c2_counterexample :
    process_block { number := Prim.str "zz", hash := .null, transactions := none } =
      .error (.valueError ("invalid literal for int() with base 16: " ++ "zz")) := by
  rfl

/-- C2 (corrected): `process_block` yields a null block_number and does not
throw whenever the `"number"` field is absent, empty or otherwise falsy,
and parses any truthy field whose string is a valid base-16 literal; but a
truthy malformed value raises an exception (see the counterexample). -/
theorem c2_block_number_parse (b : Block) :
    (pyTruthy b.number = false →
        ∃ s, process_block b = .ok s ∧ s.block_number = none) ∧
    (∀ str n, b.number = .str str → pyIntBase16 str = some n →
        ∃ s, process_block b = .ok s ∧ s.block_number = some n) := by
  constructor
  · intro h
    refine ⟨{ block_number := none, block_hash := b.hash
              total_transactions := (b.transactions.getD []).length
              by_sender := (tally (b.transactions.getD [])).1
              by_receiver := (tally (b.transactions.getD [])).2 }, ?_, rfl⟩
    simp [process_block, parseBlockNumber, h]
  · intro str n hstr hparse
    have hne : str ≠ "" := by
      intro h0
      rw [h0] at hparse
      cases hparse
    refine ⟨{ block_number := some n, block_hash := b.hash
              total_transactions := (b.transactions.getD []).length
              by_sender := (tally (b.transactions.getD [])).1
              by_receiver := (tally (b.transactions.getD [])).2 }, ?_, rfl⟩
    simp [process_block, parseBlockNumber, hstr, pyTruthy, hne, hparse]

/-- Witness for C2's amended statement: an absent field yields null, a
well-formed field parses. -/
theorem c2_witness :
    (∃ s, process_block { number := .null, hash := .null, transactions := none } = .ok s ∧
        s.block_number = none) ∧
    (∃ s, process_block { number := .str "0x10", hash := .null, transactions := none } = .ok s ∧
        s.block_number = some 16) :=
  ⟨(c2_block_number_parse _).1 rfl,
   (c2_block_number_parse _).2 "0x10" 16 rfl (by decide)⟩

/-- Shared helper: a negative block number fails in `hex_block_number`
with zero outbound calls. -/
theorem fetch_block_neg (net : Net) (n : Int) (h : n < 0) :
    fetch_block net (some n) =
      (.error (.valueError "Block number cannot be negative"), 0) := by
  simp [fetch_block, hex_block_number, h]

/-- C4 (confirmed): a negative block number makes `fetch_block` raise
`ValueError` with zero outbound RPC calls, and `get_block` maps it to
HTTP 400, still with zero calls. -/
theorem c4_negative_rejected_before_network (net : Net) (n : Int) (h : n < 0) :
    fetch_block net (some n) =
      (.error (.valueError "Block number cannot be negative"), 0) ∧
    get_block net (some n) =
      (.httpError 400 "Block number cannot be negative", 0) := by
  have hfetch := fetch_block_neg net n h
  exact ⟨hfetch, by simp only [get_block, hfetch, handle_exn]⟩

/-- Witness for C4 at `number = -5` against a live-looking network. -/
theorem c4_witness :
    get_block netNullResult (some (-5)) =
      (.httpError 400 "Block number cannot be negative", 0) :=
  (c4_negative_rejected_before_network netNullResult (-5) (by decide)).2

/-- C5 counterexample: a response with HTTP status 500 whose decoded body
carries a JSON-RPC `error` object fails with the transport-classified
`RpcError` raised by `raise_for_status`, not with the protocol-classified
one the claim requires regardless of HTTP status. -/
theorem c5_counterexample :
    call_rpc net500err "eth_getBlockByNumber" [.pstr "latest", .pbool true] =
      .error (.rpcError .transport
        ("Network or HTTP error while calling RPC: HTTP status " ++ toString 500)) ∧
    call_rpc net500err "eth_getBlockByNumber" [.pstr "latest", .pbool true] ≠
      .error (.rpcError .protocol ("RPC error: " ++ "boom")) := by
  constructor
  · rfl
  · intro h
    simp only [call_rpc, net500err, errStatus] at h
    simp at h

/-- C5 (corrected): when the HTTP status is a success status the decoded
body's `error` field raises the protocol-classified `RpcError`; but a
4xx/5xx status raises the transport-classified `RpcError` before the body
is examined; with a success status and no `error` field the `result` field
is returned verbatim (null/absent included). -/
theorem c5_rpc_error_classification (net : Net) (m : String) (ps : List Param) :
    (∀ msg, net m ps = .netFail msg →
        call_rpc net m ps =
          .error (.rpcError .transport ("Network or HTTP error while calling RPC: " ++ msg))) ∧
    (∀ st b, net m ps = .resp st b → errStatus st = true →
        call_rpc net m ps =
          .error (.rpcError .transport
            ("Network or HTTP error while calling RPC: HTTP status " ++ toString st))) ∧
    (∀ st b, net m ps = .resp st b → errStatus st = false → b.hasError = true →
        call_rpc net m ps = .error (.rpcError .protocol ("RPC error: " ++ primStr b.errorVal))) ∧
    (∀ st b, net m ps = .resp st b → errStatus st = false → b.hasError = false →
        call_rpc net m ps = .ok b.result) := by
  refine ⟨fun msg h => ?_, fun st b h h1 => ?_, fun st b h h1 h2 => ?_, fun st b h h1 h2 => ?_⟩
  · simp [call_rpc, h]
  · simp [call_rpc, h, h1]
  · simp [call_rpc, h, h1, h2]
  · simp [call_rpc, h, h1, h2]

/-- Witness for C5's amended statement: a 200 response without an `error`
field returns its (here null) result verbatim. -/
theorem c5_witness :
    call_rpc netNullResult "eth_getBlockByNumber" [.pstr "latest", .pbool true] =
      .ok .vnone := by
  have h := (c5_rpc_error_classification netNullResult "eth_getBlockByNumber"
      [.pstr "latest", .pbool true]).2.2.2 200
      { hasError := false, errorVal := .null, result := .vnone } rfl (by decide) rfl
  exact h

/-- C6 (confirmed): when the RPC call goes through (success status, no
`error` field) but its result is null/absent, `fetch_block` raises the
not-found-classified `RpcError` and `get_block` answers HTTP 502, after
exactly one outbound call. -/
theorem c6_null_result_not_found (net : Net) (number : Option Int) (bid : String)
    (st : Nat) (b : RpcBody)
    (hid : hex_block_number number = .ok bid)
    (hnet : net "eth_getBlockByNumber" [.pstr bid, .pbool true] = .resp st b)
    (hst : errStatus st = false) (herr : b.hasError = false) (hres : b.result = .vnone) :
    fetch_block net number =
      (.error (.rpcError .notFound ("No block found for " ++ bid)), 1) ∧
    get_block net number = (.httpError 502 ("No block found for " ++ bid), 1) := by
  have hfetch : fetch_block net number =
      (.error (.rpcError .notFound ("No block found for " ++ bid)), 1) := by
    simp only [fetch_block]
    rw [hid]
    simp [call_rpc, hnet, hst, herr, hres]
  exact ⟨hfetch, by simp only [get_block, hfetch, handle_exn]⟩

/-- Witness for C6: a null result for block number 1 yields a 502 after one
call. -/
theorem c6_witness :
    get_block netNullResult (some 1) =
      (.httpError 502 ("No block found for " ++ "0x1"), 1) :=
  (c6_null_result_not_found netNullResult (some 1) "0x1" 200
      { hasError := false, errorVal := .null, result := .vnone }
      (by rfl) rfl (by decide) rfl rfl).2

/-- C7 counterexample: with valid caller input (`number = 1`, not negative,
so no `InvalidArgument` arises) and an upstream node that answers with a
block whose `"number"` field is malformed, the handler responds 400 — the
`ValueError` raised inside `process_block` is caught by the same clause as
the bad-caller-input one — although this failure is none of
`InvalidArgument`, `TransportError`, `RpcProtocolError` or `NotFound`, so
the claimed taxonomy mapping requires 500 for it. -/
theorem c7_counterexample :
    (get_block netMalformedNumber (some 1)).1 =
      .httpError 400 ("invalid literal for int() with base 16: " ++ "zz") ∧
    ¬ (1 : Int) < 0 ∧
    (get_block netMalformedNumber (some 1)).1 ≠
      .httpError 500 ("Unexpected server error: " ++
        "invalid literal for int() with base 16: " ++ "zz") := by
  refine ⟨by rfl, by decide, by decide⟩

/-- C7 (corrected): the handler maps by exception class, not by the
taxonomy's provenance: a negative number yields 400 with no call; every
`RpcError` (transport, protocol or not-found) yields 502; any `ValueError`
yields 400 — including one raised while parsing the fetched block's
`"number"` field, which the taxonomy would file under "any other failure"
→ 500; every remaining exception yields 500; a successful pipeline is
returned as-is, so no failure is swallowed. -/
theorem c7_handler_status_mapping (net : Net) (number : Option Int) :
    (∀ n : Int, number = some n → n < 0 →
        get_block net number = (.httpError 400 "Block number cannot be negative", 0)) ∧
    (∀ k msg cnt, fetch_block net number = (.error (.rpcError k msg), cnt) →
        get_block net number = (.httpError 502 msg, cnt)) ∧
    (∀ msg cnt, fetch_block net number = (.error (.valueError msg), cnt) →
        get_block net number = (.httpError 400 msg, cnt)) ∧
    (∀ r cnt msg, fetch_block net number = (.ok r, cnt) →
        process_block_r r = .error (.valueError msg) →
        get_block net number = (.httpError 400 msg, cnt)) ∧
    (∀ r cnt msg, fetch_block net number = (.ok r, cnt) →
        process_block_r r = .error (.otherExc msg) →
        get_block net number = (.httpError 500 ("Unexpected server error: " ++ msg), cnt)) ∧
    (∀ r cnt s, fetch_block net number = (.ok r, cnt) →
        process_block_r r = .ok s →
        get_block net number = (.ok s, cnt)) := by
  refine ⟨fun n hn hneg => ?_, fun k msg cnt h => ?_, fun msg cnt h => ?_,
          fun r cnt msg h hp => ?_, fun r cnt msg h hp => ?_, fun r cnt s h hp => ?_⟩
  · subst hn
    have hfetch := fetch_block_neg net n hneg
    simp only [get_block, hfetch, handle_exn]
  · simp only [get_block, h, handle_exn]
  · simp only [get_block, h, handle_exn]
  · simp only [get_block, h, hp, handle_exn]
  · simp only [get_block, h, hp, handle_exn]
  · simp only [get_block, h, hp, handle_exn]

/-- Witness for C7's amended statement: the negative-number clause at a
concrete request. -/
theorem c7_witness :
    get_block netNullResult (some (-1)) =
      (.httpError 400 "Block number cannot be negative", 0) :=
  (c7_handler_status_mapping netNullResult (some (-1))).1 (-1) rfl (by decide)

end App
